import Mathlib

/-!
Shallow embedding of the provisioning reconciler of dstoolkit-mlops-v2:
the conflict-retry executor (`create_with_retry` in
mlops/common/deployment/provision_batch_endpoint.py and `deploy_with_retry`
in mlops/common/deployment/provision_batch_deployment.py), the endpoint
readiness poller (`wait_for_endpoint_ready`), and the compute / role-binding
reconciliation in mlops/common/get_compute.py.

External provider calls (Azure SDK calls, `az` CLI subprocesses) are modelled
by explicit response traces passed as arguments; the embeddings record the
observable effects (calls issued, sleeps performed, value returned or
exception raised) of the exact control flow of the Python source.
-/

namespace MLOps

/-- `pat` is a leading match of `hay` (on character lists). -/
def matchHere : List Char → List Char → Bool
  | _, [] => true
  | [], _ :: _ => false
  | h :: hs, p :: ps => h == p && matchHere hs ps

/-- `pat` occurs somewhere in `hay` (on character lists). -/
def containsSub : List Char → List Char → Bool
  | [], pat => pat.isEmpty
  | h :: hs, pat => matchHere (h :: hs) pat || containsSub hs pat

/-- Python substring membership `pat in hay`. -/
def strContains (hay pat : String) : Bool :=
  containsSub hay.data pat.data

/-- Python `s.lower()` (ASCII, which covers every pattern the source tests). -/
def lowerStr (s : String) : String :=
  ⟨s.data.map Char.toLower⟩

/-- Exceptions that flow through the provisioning scripts.
`resourceExists` is `azure.core.exceptions.ResourceExistsError` carrying
`str(e)`; `calledProcessError` is `subprocess.CalledProcessError` carrying
`e.stderr`; `generic` is a plain Python `Exception(msg)`.
`retryExhausted` is the spec's RetryExhaustedError taxonomy entry (§7,
"wraps the final ConflictError"); it exists only so the spec's wrapping
requirement can be stated — no code path constructs it. -/
inductive Exn where
  | resourceExists (msg : String)
  | calledProcessError (stderr : String)
  | generic (msg : String)
  | retryExhausted (wrapped : List String) (msg : String)
deriving DecidableEq, Repr

/-- Outcome of one attempt of the retried operation
(`ml_client.batch_endpoints.begin_create_or_update(...).result()` resp.
`ml_client.begin_create_or_update(...).result()`): the attempt either
returns a result or raises an exception. -/
inductive AttemptOutcome where
  | success (r : Nat)
  | raise (e : Exn)
deriving DecidableEq, Repr

/-- How the retry executor terminates: a returned result, a re-raised
exception from inside the loop, or the trailing
`raise Exception("... failed after all retry attempts")` placed after
the loop. -/
inductive RetryOutcome where
  | ok (r : Nat)
  | raised (e : Exn)
  | trailingRaise (msg : String)
deriving DecidableEq, Repr

/-- Observable trace of one run of the retry executor: its termination,
the backoff sleeps performed (seconds, in order), and how many attempts
(calls of the retried operation) were made. -/
structure RetryTrace where
  outcome : RetryOutcome
  sleeps : List Nat
  attempts : Nat
deriving DecidableEq, Repr

/-- The `for attempt in range(max_retries)` loop shared by
`create_with_retry` and `deploy_with_retry`, with `remaining` iterations
left and the current `attempt` index (`attempt + remaining = max_retries`
at every call from `execute_with_retry`).  On an exception classified by
`isConflict` with `attempt < max_retries - 1` it sleeps
`initial_delay * 2 ** attempt` and continues; on any other exception, or a
conflict on the last attempt, it re-raises; after the loop the trailing
`raise Exception(trailingMsg)` fires. -/
def retryGo (isConflict : Exn → Bool) (trailingMsg : String)
    (op : Nat → AttemptOutcome) (max_retries initial_delay : Nat) :
    Nat → Nat → List Nat → RetryTrace
  | 0, attempt, sleeps => ⟨.trailingRaise trailingMsg, sleeps, attempt⟩
  | remaining + 1, attempt, sleeps =>
    match op attempt with
    | .success r => ⟨.ok r, sleeps, attempt + 1⟩
    | .raise e =>
      if isConflict e ∧ attempt < max_retries - 1 then
        retryGo isConflict trailingMsg op max_retries initial_delay
          remaining (attempt + 1) (sleeps ++ [initial_delay * 2 ^ attempt])
      else ⟨.raised e, sleeps, attempt + 1⟩

/-- The spec's `execute_with_retry(operation, max_retries, initial_delay)`:
the common body of `create_with_retry` and `deploy_with_retry`,
parameterized by the conflict classifier and the trailing message. -/
def execute_with_retry (isConflict : Exn → Bool) (trailingMsg : String)
    (op : Nat → AttemptOutcome) (max_retries initial_delay : Nat) : RetryTrace :=
  retryGo isConflict trailingMsg op max_retries initial_delay max_retries 0 []

/-- provision_batch_endpoint.py line 52: the caught exception is a
`ResourceExistsError` whose `str(e).lower()` holds
`"operation is already in progress"`. -/
def isConflictEndpoint : Exn → Bool
  | .resourceExists msg => strContains (lowerStr msg) "operation is already in progress"
  | _ => false

/-- provision_batch_deployment.py line 61: the caught exception is a
`ResourceExistsError` whose `str(e)` holds `"Already running method"`
(case-sensitive, no `.lower()` here). -/
def isConflictDeployment : Exn → Bool
  | .resourceExists msg => strContains msg "Already running method"
  | _ => false

/-- `create_with_retry(ml_client, endpoint, max_retries=3, initial_delay=60)`
of provision_batch_endpoint.py, over an attempt-outcome trace `op`. -/
def create_with_retry (op : Nat → AttemptOutcome)
    (max_retries initial_delay : Nat) : RetryTrace :=
  execute_with_retry isConflictEndpoint
    "Endpoint creation failed after all retry attempts" op max_retries initial_delay

/-- `deploy_with_retry(ml_client, deployment, max_retries=3, initial_delay=60)`
of provision_batch_deployment.py, over an attempt-outcome trace `op`. -/
def deploy_with_retry (op : Nat → AttemptOutcome)
    (max_retries initial_delay : Nat) : RetryTrace :=
  execute_with_retry isConflictDeployment
    "Deployment failed after all retry attempts" op max_retries initial_delay

/-- An operation trace in which every attempt raises a conflicting
`ResourceExistsError` (the message matches both conflict classifiers
after lowercasing for the endpoint one). -/
def opAllConflict : Nat → AttemptOutcome :=
  fun _ => .raise (.resourceExists "Conflict: operation is already in progress on endpoint")

/-- True exactly when the executor terminated by raising the spec's
RetryExhaustedError wrapper. -/
def isRetryExhaustedOutcome : RetryOutcome → Bool
  | .raised (.retryExhausted _ _) => true
  | _ => false

/-! ## OperationPoller: `wait_for_endpoint_ready` -/

/-- Result of one `ml_client.batch_endpoints.get(endpoint_name)` call:
either an endpoint object (its `provisioning_state`) or a raised
exception carrying `str(e)`. -/
inductive GetResult where
  | ok (provisioning_state : String)
  | raise (msg : String)
deriving DecidableEq, Repr

/-- The not-found test of the `except` handler (provision_batch_endpoint.py
line 34): `"not found" in str(e).lower() or "ResourceNotFound" in str(e)`. -/
def notFoundMatch (msg : String) : Bool :=
  strContains (lowerStr msg) "not found" || strContains msg "ResourceNotFound"

/-- How `wait_for_endpoint_ready` terminates: `return True`, a (re-)raised
exception, or the `TimeoutError` after the while loop. -/
inductive PollOutcome where
  | ready
  | raised (msg : String)
  | timeout (msg : String)
deriving DecidableEq, Repr

/-- Observable trace of `wait_for_endpoint_ready`: termination, number of
`ml_client.batch_endpoints.get` calls issued, and sleeps performed. -/
structure PollTrace where
  outcome : PollOutcome
  reads : Nat
  sleeps : List Nat
deriving DecidableEq, Repr

/-- The `while time.time() - start_time < max_wait` loop of
`wait_for_endpoint_ready`, with the get calls costing no time, so elapsed
time advances only by the 30-second sleeps: the loop body runs at
elapsed = 0, 30, 60, …, i.e. exactly ⌈max_wait / 30⌉ times unless it
returns or raises first.  `fuel` is the number of those remaining
iterations (`fuel = 0` exactly when `elapsed ≥ max_wait`), and `get i` is
the result of the i-th get call.  A `Failed`/`Canceled` state raises
`Exception(f"Endpoint in ... state")` inside the `try`, so that message
runs through the same not-found handler as a failing get call. -/
def pollGo (get : Nat → GetResult) (max_wait : Nat) :
    Nat → Nat → List Nat → PollTrace
  | 0, reads, sleeps =>
    ⟨.timeout ("Endpoint not ready after " ++ toString max_wait ++ " seconds"), reads, sleeps⟩
  | fuel + 1, reads, sleeps =>
    match get reads with
    | .ok st =>
      if st = "Succeeded" then ⟨.ready, reads + 1, sleeps⟩
      else if st = "Failed" ∨ st = "Canceled" then
        if notFoundMatch ("Endpoint in " ++ st ++ " state") then ⟨.ready, reads + 1, sleeps⟩
        else ⟨.raised ("Endpoint in " ++ st ++ " state"), reads + 1, sleeps⟩
      else pollGo get max_wait fuel (reads + 1) (sleeps ++ [30])
    | .raise msg =>
      if notFoundMatch msg then ⟨.ready, reads + 1, sleeps⟩
      else ⟨.raised msg, reads + 1, sleeps⟩

/-- `wait_for_endpoint_ready(ml_client, endpoint_name, max_wait=600)`
(identical in provision_batch_endpoint.py and
provision_batch_deployment.py), over a get-result trace.  The while loop
on elapsed time runs its body ⌈max_wait / 30⌉ times at 30 s per sleep. -/
def wait_for_endpoint_ready (get : Nat → GetResult) (max_wait : Nat) : PollTrace :=
  pollGo get max_wait ((max_wait + 29) / 30) 0 []

/-- A resource reference that resolves to NotFound on every read. -/
def getNotFound : Nat → GetResult :=
  fun _ => .raise "(ResourceNotFound) The Resource was not found"

/-- A resource stuck in the non-terminal `Creating` state on every read. -/
def getStuckCreating : Nat → GetResult :=
  fun _ => .ok "Creating"

/-! ## RoleGrantManager: `_check_role_assignment` and the role-grant blocks -/

/-- What one `az role assignment list` subprocess produces for the caller
of `_check_role_assignment`: the parsed JSON list of assignments, or a
raised exception (`subprocess.CalledProcessError` from a nonzero exit,
`json.loads` failure, or anything else) carrying `str(e)`. -/
inductive ListResult where
  | ok (assignments : List String)
  | raise (msg : String)
deriving DecidableEq, Repr

/-- `_check_role_assignment(principal_id, scope, role_name)` of
get_compute.py lines 18-40, over the list-call result: the whole body is
wrapped in `try: ... except Exception: return False`, so the happy path
returns `len(assignments) > 0` and every failure returns `False`. -/
def check_role_assignment (listCall : ListResult) : Bool :=
  match listCall with
  | .ok assignments => assignments.length > 0
  | .raise _ => false

/-- Result of one `az role assignment create` subprocess: clean success,
or `subprocess.CalledProcessError` carrying `e.stderr`. -/
inductive CreateResult where
  | ok
  | calledProcessError (stderr : String)
deriving DecidableEq, Repr

/-- Termination of a role-grant block: returned normally, or raised an
exception with the given message. -/
inductive GrantOutcome where
  | ok
  | raised (msg : String)
deriving DecidableEq, Repr

/-- Observable trace of one role-grant block: the value returned or the
exception message raised, the number of `az role assignment create` calls
issued, the number of `az role assignment list` calls issued, and the
sleeps performed (seconds, in order). -/
structure RoleTrace where
  result : GrantOutcome
  createCalls : Nat
  listCalls : Nat
  sleeps : List Nat
deriving DecidableEq, Repr

/-- One role-grant block of `_assign_storage_role` (get_compute.py lines
62-95 for Storage Blob Data Contributor on the storage account, lines
102-135 for AzureML Data Scientist on the workspace), over the provider
results: pre-check list call `pre`, create call `create`, post-create
verification list call `post`.  If the pre-check finds the binding, skip.
On a clean create, sleep 120 s, then verify best-effort (the `post` result
only selects a log line).  On a `CalledProcessError` whose stderr holds
`"RoleAssignmentExists"`, sleep 30 s and succeed.  On any other
`CalledProcessError`, raise `Exception("Failed to assign <role> role: " +
stderr)`. -/
def ensure_role (roleName : String) (pre : ListResult) (create : CreateResult)
    (_post : ListResult) : RoleTrace :=
  if check_role_assignment pre then ⟨.ok, 0, 1, []⟩
  else
    match create with
    | .ok =>
      -- sleep(120), then _check_role_assignment(post) decides only the log line
      ⟨.ok, 1, 2, [120]⟩
    | .calledProcessError stderr =>
      if strContains stderr "RoleAssignmentExists" then ⟨.ok, 1, 1, [30]⟩
      else ⟨.raised ("Failed to assign " ++ roleName ++ " role: " ++ stderr), 1, 1, []⟩

/-- The workspace-identity storage grant inlined in `get_compute`
(get_compute.py lines 227-258): same shape as `ensure_role`, except that
the `RoleAssignmentExists` branch (lines 253-255) only prints
"already exists - this is OK." and performs NO sleep before succeeding. -/
def workspace_storage_grant (pre : ListResult) (create : CreateResult)
    (_post : ListResult) : RoleTrace :=
  if check_role_assignment pre then ⟨.ok, 0, 1, []⟩
  else
    match create with
    | .ok => ⟨.ok, 1, 2, [120]⟩
    | .calledProcessError stderr =>
      if strContains stderr "RoleAssignmentExists" then ⟨.ok, 1, 1, []⟩
      else ⟨.raised ("Failed to assign Storage Blob Data Contributor role to workspace: " ++ stderr),
            1, 1, []⟩

/-- `ensure_role` run against a reliable in-memory control plane holding
one binding slot: `present` is whether the `(principal_id, role, scope)`
binding exists.  List calls report the current presence; a create on an
absent binding succeeds and makes it present; a create on a present
binding fails with `RoleAssignmentExists` (and leaves it present).
Returns the call trace together with the final control-plane state. -/
def ensure_role_state (roleName : String) (present : Bool) : RoleTrace × Bool :=
  (ensure_role roleName
    (.ok (if present then ["existing-assignment"] else []))
    (if present then .calledProcessError "RoleAssignmentExists: the role assignment already exists"
     else .ok)
    (.ok ["created-assignment"]),
   true)

/-! ## ResourceReconciler: `_get_or_create_compute_target` -/

/-- The identity of a compute object as the Python truthiness tests see it:
`compute_object.identity` may be `None`, and
`compute_object.identity.principal_id` may be `None` or empty. -/
structure ComputeIdentity where
  principal_id : Option String
deriving DecidableEq, Repr

/-- A compute object as returned by `client.compute.get` /
`begin_create_or_update(...).result()`. -/
structure ComputeObject where
  name : String
  identity : Option ComputeIdentity
deriving DecidableEq, Repr

/-- Python `compute_object.identity and compute_object.identity.principal_id`
as a Bool: the identity object exists and its principal_id is truthy
(non-`None`, nonempty). -/
def hasIdentityPid (c : ComputeObject) : Bool :=
  match c.identity with
  | some i =>
    match i.principal_id with
    | some p => !(p == "")
    | none => false
  | none => false

/-- Result of one compute-control-plane call (`client.compute.get` or
`client.compute.begin_create_or_update(...).result()`): a compute object
or a raised exception. -/
inductive ComputeResult where
  | ok (c : ComputeObject)
  | raise (msg : String)
deriving DecidableEq, Repr

/-- Provider responses consumed by one `_get_or_create_compute_target`
run: the initial `compute.get`, the identity-attach
`begin_create_or_update` (issued with `identity = SystemAssigned` set on
the found object), the refresh `compute.get` after the 30 s sleep, and the
`begin_create_or_update` of a fresh `AmlCompute` spec on the not-found
path. -/
structure ComputeProvider where
  firstGet : ComputeResult
  identityUpdate : ComputeResult
  refreshGet : ComputeResult
  createNew : ComputeResult
deriving DecidableEq, Repr

/-- Termination of `_get_or_create_compute_target`: the returned compute
object, or a raised exception with the given message. -/
inductive ComputeOutcome where
  | ok (c : ComputeObject)
  | raised (msg : String)
deriving DecidableEq, Repr

/-- Observable trace of `_get_or_create_compute_target`: the returned
compute object or raised exception, the number of identity-attach updates
issued on the found object, the number of fresh-spec creates issued, the
number of `compute.get` calls, and the sleeps performed. -/
structure ComputeTrace where
  result : ComputeOutcome
  updateCalls : Nat
  createCalls : Nat
  getCalls : Nat
  sleeps : List Nat
deriving DecidableEq, Repr

/-- `_get_or_create_compute_target` of get_compute.py lines 142-185.
The whole lookup-and-upgrade path sits in one `try:`, and `except
Exception:` falls through to creating a fresh `AmlCompute` spec — so a
failing first get, a failing identity-attach update, and a failing refresh
get all route into the create path. -/
def get_or_create_compute_target (p : ComputeProvider) : ComputeTrace :=
  match p.firstGet with
  | .raise _ =>
    -- except: f"{cluster_name} is not found! Trying to create a new one."
    match p.createNew with
    | .ok c => ⟨.ok c, 0, 1, 1, []⟩
    | .raise m => ⟨.raised m, 0, 1, 1, []⟩
  | .ok c =>
    if hasIdentityPid c then ⟨.ok c, 0, 0, 1, []⟩
    else
      -- compute_object.identity = IdentityConfiguration(type="SystemAssigned")
      match p.identityUpdate with
      | .raise _ =>
        match p.createNew with
        | .ok c2 => ⟨.ok c2, 1, 1, 1, []⟩
        | .raise m => ⟨.raised m, 1, 1, 1, []⟩
      | .ok _ =>
        -- print("Waiting 30 seconds for identity provisioning..."); time.sleep(30)
        match p.refreshGet with
        | .raise _ =>
          match p.createNew with
          | .ok c2 => ⟨.ok c2, 1, 1, 2, [30]⟩
          | .raise m => ⟨.raised m, 1, 1, 2, [30]⟩
        | .ok c2 => ⟨.ok c2, 1, 0, 2, [30]⟩

/-- A compute object with a provisioned system-assigned identity. -/
def computeWithPid : ComputeObject :=
  ⟨"train-cluster", some ⟨some "11111111-aaaa-bbbb-cccc-222222222222"⟩⟩

/-- A compute object with no identity attached. -/
def computeNoIdentity : ComputeObject :=
  ⟨"train-cluster", none⟩

/-- Two sequential `ensure_role` calls with identical arguments against the
reliable in-memory control plane, starting from presence `present`:
the traces of the first and the second invocation. -/
def ensure_role_twice (roleName : String) (present : Bool) : RoleTrace × RoleTrace :=
  ((ensure_role_state roleName present).fst,
   (ensure_role_state roleName (ensure_role_state roleName present).snd).fst)

/-- True exactly when the retry executor terminated via the trailing
`raise Exception("... failed after all retry attempts")` placed after the
loop. -/
def isTrailingOutcome : RetryOutcome → Bool
  | .trailingRaise _ => true
  | _ => false

/-- A conflicting `ResourceExistsError` as `az`-independent test data for
the deployment classifier. -/
def genericAuthError : Exn := .generic "authorization failed for caller"

/-! ## Theorems -/

/-- Inside the `for attempt in range(max_retries)` loop, the trailing
raise is unreachable: as long as at least one iteration remains
(`attempt + remaining = max_retries`, `0 < remaining`), the loop body
returns or raises before the fuel runs out. -/
theorem retryGo_no_trailing (isConflict : Exn → Bool) (trailingMsg : String)
    (op : Nat → AttemptOutcome) (max_retries initial_delay : Nat) :
    ∀ remaining attempt sleeps, attempt + remaining = max_retries → 0 < remaining →
      isTrailingOutcome (retryGo isConflict trailingMsg op max_retries initial_delay
        remaining attempt sleeps).outcome = false := by
  intro remaining
  induction remaining with
  | zero => intro attempt sleeps _ h; exact absurd h (by omega)
  | succ n ih =>
    intro attempt sleeps hsum _
    simp only [retryGo]
    cases hop : op attempt with
    | success r => simp [isTrailingOutcome]
    | raise e =>
      dsimp only
      split
      · next hcond =>
        exact ih (attempt + 1) (sleeps ++ [initial_delay * 2 ^ attempt])
          (by omega) (by have := hcond.2; omega)
      · simp [isTrailingOutcome]

/-- Claim C1, counterexample: with `max_retries=3, initial_delay=60` and an
operation that raises a ConflictError on every attempt, the executor
sleeps 60 s then 120 s and then raises — but what it raises is the last
`ResourceExistsError` itself (a bare `raise` of `e`), not a distinct
RetryExhaustedError wrapping it. -/
theorem c1_counterexample :
    (create_with_retry opAllConflict 3 60).sleeps = [60, 120] ∧
    (create_with_retry opAllConflict 3 60).outcome =
      .raised (.resourceExists "Conflict: operation is already in progress on endpoint") ∧
    isRetryExhaustedOutcome (create_with_retry opAllConflict 3 60).outcome = false := by
  decide

/-- Claim C1, amended: for every operation that raises a conflict-classified
error on all three attempts, the executor with `max_retries=3,
initial_delay=60` sleeps 60 s between the first and second attempt and
120 s between the second and third, and after the third failed attempt
re-raises the last ConflictError itself (never returning success). -/
theorem c1_retry_exhaust_reraises_last_conflict
    (isConflict : Exn → Bool) (trailingMsg : String) (op : Nat → AttemptOutcome)
    (e0 e1 e2 : Exn)
    (h0 : op 0 = .raise e0) (h1 : op 1 = .raise e1) (h2 : op 2 = .raise e2)
    (k0 : isConflict e0 = true) (k1 : isConflict e1 = true) (k2 : isConflict e2 = true) :
    execute_with_retry isConflict trailingMsg op 3 60 = ⟨.raised e2, [60, 120], 3⟩ := by
  unfold execute_with_retry
  simp [retryGo, h0, h1, h2, k0, k1, k2]

/-- Claim C1, witness: the amended theorem applied to `create_with_retry`
on the always-conflicting operation trace. -/
theorem c1_witness :
    execute_with_retry isConflictEndpoint
      "Endpoint creation failed after all retry attempts" opAllConflict 3 60 =
      ⟨.raised (.resourceExists "Conflict: operation is already in progress on endpoint"),
        [60, 120], 3⟩ :=
  c1_retry_exhaust_reraises_last_conflict isConflictEndpoint
    "Endpoint creation failed after all retry attempts" opAllConflict _ _ _
    rfl rfl rfl (by decide) (by decide) (by decide)

/-- Claim C2, counterexample: the workspace-identity storage grant in
`get_compute` (lines 243-258) handles a `RoleAssignmentExists` create
conflict as success but performs NO propagation sleep — its sleep list is
empty, not `[30]` — so the 30-second AlreadyExists wait does not hold for
every `(principal_id, role, scope)` pair. -/
theorem c2_counterexample :
    workspace_storage_grant (.ok [])
      (.calledProcessError "RoleAssignmentExists: the role assignment already exists")
      (.ok ["created-assignment"]) = ⟨.ok, 1, 1, []⟩ ∧
    (workspace_storage_grant (.ok [])
      (.calledProcessError "RoleAssignmentExists: the role assignment already exists")
      (.ok ["created-assignment"])).sleeps ≠ [30] := by
  decide

/-- Claim C2, amended: when the pre-check finds no binding, the two grant
blocks of `_assign_storage_role` sleep 120 s after a clean create and 30 s
after an AlreadyExists create conflict, returning success without raising
in both cases; the workspace-identity storage grant in `get_compute` also
sleeps 120 s after a clean create but returns success immediately, with no
sleep, after an AlreadyExists conflict. -/
theorem c2_propagation_delays
    (roleName : String) (pre post : ListResult) (stderr : String)
    (hpre : check_role_assignment pre = false)
    (hex : strContains stderr "RoleAssignmentExists" = true) :
    ensure_role roleName pre .ok post = ⟨.ok, 1, 2, [120]⟩ ∧
    ensure_role roleName pre (.calledProcessError stderr) post = ⟨.ok, 1, 1, [30]⟩ ∧
    workspace_storage_grant pre .ok post = ⟨.ok, 1, 2, [120]⟩ ∧
    workspace_storage_grant pre (.calledProcessError stderr) post = ⟨.ok, 1, 1, []⟩ := by
  unfold ensure_role workspace_storage_grant
  simp [hpre, hex]

/-- Claim C2, witness: the amended theorem at a concrete empty pre-check and
a concrete `RoleAssignmentExists` stderr. -/
theorem c2_witness :
    check_role_assignment (.ok []) = false ∧
    strContains "RoleAssignmentExists: the role assignment already exists"
      "RoleAssignmentExists" = true ∧
    ensure_role "Storage Blob Data Contributor" (.ok [])
      (.calledProcessError "RoleAssignmentExists: the role assignment already exists")
      (.ok []) = ⟨.ok, 1, 1, [30]⟩ :=
  ⟨by decide, by decide,
    (c2_propagation_delays "Storage Blob Data Contributor" (.ok []) (.ok [])
      "RoleAssignmentExists: the role assignment already exists"
      (by decide) (by decide)).2.1⟩

/-- Claim C3: against the reliable in-memory control plane, `ensure_role`
on an already-present binding returns immediately — no create call, only
the pre-check list call, no sleep — and two sequential invocations with
identical arguments starting from an absent binding issue exactly one
create-binding call in total (one on the first invocation, zero on the
second). -/
theorem c3_ensure_role_idempotent (roleName : String) :
    (ensure_role_state roleName true).fst = ⟨.ok, 0, 1, []⟩ ∧
    (ensure_role_twice roleName false).fst.createCalls = 1 ∧
    (ensure_role_twice roleName false).snd.createCalls = 0 ∧
    (ensure_role_twice roleName false).fst.result = .ok ∧
    (ensure_role_twice roleName false).snd.result = .ok :=
  ⟨rfl, rfl, rfl, rfl, rfl⟩

/-- Claim C4, counterexample: on a reference that resolves to NotFound,
`wait_for_endpoint_ready` does return ready with zero sleeps, but it
issues exactly one state read (the get call whose failure is classified as
not-found), not zero. -/
theorem c4_counterexample :
    wait_for_endpoint_ready getNotFound 600 = ⟨.ready, 1, []⟩ ∧
    (wait_for_endpoint_ready getNotFound 600).reads ≠ 0 := by
  decide

/-- Claim C4, amended: for every positive `max_wait` and every reference
whose first state read raises a not-found-classified error,
`wait_for_endpoint_ready` returns ready immediately after exactly one
state read and zero sleeps. -/
theorem c4_notfound_ready_single_read (get : Nat → GetResult) (max_wait : Nat)
    (m : String) (hmw : 0 < max_wait)
    (h0 : get 0 = .raise m) (hm : notFoundMatch m = true) :
    wait_for_endpoint_ready get max_wait = ⟨.ready, 1, []⟩ := by
  unfold wait_for_endpoint_ready
  obtain ⟨k, hk⟩ : ∃ k, (max_wait + 29) / 30 = k + 1 :=
    ⟨(max_wait + 29) / 30 - 1, by omega⟩
  rw [hk]
  simp [pollGo, h0, hm]

/-- Claim C4, witness: the amended theorem at the always-NotFound reference
and the default `max_wait=600`. -/
theorem c4_witness :
    0 < 600 ∧ wait_for_endpoint_ready getNotFound 600 = ⟨.ready, 1, []⟩ :=
  ⟨by decide, c4_notfound_ready_single_read getNotFound 600
    "(ResourceNotFound) The Resource was not found" (by decide) rfl (by decide)⟩

/-- Claim C5, counterexample: on a resource stuck in `Creating`,
`wait_for_endpoint_ready` with `max_wait=90` raises
`TimeoutError("Endpoint not ready after 90 seconds")` — a message that
names the wait bound but does not mention the last observed state
`Creating`. -/
theorem c5_counterexample :
    (wait_for_endpoint_ready getStuckCreating 90).outcome =
      .timeout "Endpoint not ready after 90 seconds" ∧
    strContains "Endpoint not ready after 90 seconds" "Creating" = false := by
  decide

/-- Claim C5, amended: for every resource stuck in the non-terminal
`Creating` state throughout, `wait_for_endpoint_ready` with its 30-second
poll interval and `max_wait=90` performs exactly 3 state reads and 3
sleeps and then raises a TimeoutError naming the `max_wait` bound (which
equals the elapsed time), without the last observed state in the message. -/
theorem c5_timeout_after_three_reads (get : Nat → GetResult)
    (h : ∀ i, get i = .ok "Creating") :
    wait_for_endpoint_ready get 90 =
      ⟨.timeout "Endpoint not ready after 90 seconds", 3, [30, 30, 30]⟩ ∧
    strContains "Endpoint not ready after 90 seconds" "Creating" = false := by
  have hg : get = fun _ => GetResult.ok "Creating" := funext h
  subst hg
  decide

/-- Claim C5, witness: the amended theorem at the concrete stuck-in-Creating
read trace. -/
theorem c5_witness :
    wait_for_endpoint_ready getStuckCreating 90 =
      ⟨.timeout "Endpoint not ready after 90 seconds", 3, [30, 30, 30]⟩ :=
  (c5_timeout_after_three_reads getStuckCreating (fun _ => rfl)).1

/-- Claim C6, counterexample: when the resource is found without an
identity, the identity-attach update succeeds, and the refresh read after
the 30-second sleep still shows no identity, `_get_or_create_compute_target`
returns that refreshed identity-less object anyway (the code only prints
"WARNING: Identity was enabled but principal_id is not yet available.") —
it does not wait until the identity is reflected. -/
theorem c6_counterexample :
    get_or_create_compute_target
      ⟨.ok computeNoIdentity, .ok computeNoIdentity, .ok computeNoIdentity,
        .ok computeNoIdentity⟩ = ⟨.ok computeNoIdentity, 1, 0, 2, [30]⟩ ∧
    hasIdentityPid computeNoIdentity = false := by
  decide

/-- Claim C6, amended: for every resource found by lookup without an
identity, when the identity-attach update and the refresh read both
succeed, `_get_or_create_compute_target` issues exactly one identity-attach
update and zero fresh creates, sleeps a fixed 30 s, performs one refresh
read, and returns the refreshed object — whether or not that object
reflects the identity yet (best-effort, warning when not). -/
theorem c6_identity_attach_once (p : ComputeProvider) (c c1 c2 : ComputeObject)
    (h1 : p.firstGet = .ok c) (h2 : hasIdentityPid c = false)
    (h3 : p.identityUpdate = .ok c1) (h4 : p.refreshGet = .ok c2) :
    get_or_create_compute_target p = ⟨.ok c2, 1, 0, 2, [30]⟩ := by
  unfold get_or_create_compute_target
  rw [h1]
  simp [h2, h3, h4]

/-- Claim C6, witness: the amended theorem on a provider whose refresh read
does reflect the newly attached identity. -/
theorem c6_witness :
    get_or_create_compute_target
      ⟨.ok computeNoIdentity, .ok computeNoIdentity, .ok computeWithPid,
        .ok computeWithPid⟩ = ⟨.ok computeWithPid, 1, 0, 2, [30]⟩ :=
  c6_identity_attach_once _ _ _ _ rfl (by decide) rfl rfl

/-- Claim C7: for every resource found by lookup that already has an
identity with a principal_id, `_get_or_create_compute_target` returns it
unchanged after the single lookup read, issuing zero identity-attach
updates, zero fresh creates, and no sleeps. -/
theorem c7_present_with_identity_unchanged (p : ComputeProvider) (c : ComputeObject)
    (h1 : p.firstGet = .ok c) (h2 : hasIdentityPid c = true) :
    get_or_create_compute_target p = ⟨.ok c, 0, 0, 1, []⟩ := by
  unfold get_or_create_compute_target
  rw [h1]
  simp [h2]

/-- Claim C7, witness: the theorem on a provider whose lookup returns a
compute object with a provisioned identity. -/
theorem c7_witness :
    get_or_create_compute_target
      ⟨.ok computeWithPid, .ok computeWithPid, .ok computeWithPid,
        .ok computeWithPid⟩ = ⟨.ok computeWithPid, 0, 0, 1, []⟩ :=
  c7_present_with_identity_unchanged _ _ rfl (by decide)

/-- Claim C8: for every operation whose first attempt raises an error not
classified as a conflict, the retry executor (with any positive
`max_retries` and any `initial_delay`) re-raises that error after exactly
one attempt, with zero backoff sleeps. -/
theorem c8_other_error_propagates_immediately
    (isConflict : Exn → Bool) (trailingMsg : String) (op : Nat → AttemptOutcome)
    (e : Exn) (max_retries initial_delay : Nat)
    (hmr : 0 < max_retries) (h0 : op 0 = .raise e) (hc : isConflict e = false) :
    execute_with_retry isConflict trailingMsg op max_retries initial_delay =
      ⟨.raised e, [], 1⟩ := by
  unfold execute_with_retry
  obtain ⟨k, rfl⟩ : ∃ k, max_retries = k + 1 := ⟨max_retries - 1, by omega⟩
  simp [retryGo, h0, hc]

/-- Claim C8, witness: the theorem applied to `deploy_with_retry`'s
classifier with a non-conflict error at the default
`max_retries=3, initial_delay=60`. -/
theorem c8_witness :
    0 < 3 ∧ isConflictDeployment genericAuthError = false ∧
    execute_with_retry isConflictDeployment
      "Deployment failed after all retry attempts"
      (fun _ => .raise genericAuthError) 3 60 = ⟨.raised genericAuthError, [], 1⟩ :=
  ⟨by decide, by decide,
    c8_other_error_propagates_immediately isConflictDeployment
      "Deployment failed after all retry attempts"
      (fun _ => .raise genericAuthError) genericAuthError 3 60
      (by decide) rfl (by decide)⟩

/-- Claim C9, counterexample: with `max_retries=0` the `for attempt in
range(max_retries)` loop body never runs, so the trailing
`raise Exception("Endpoint creation failed after all retry attempts")`
after the loop IS reached — even for an operation that would succeed. -/
theorem c9_counterexample :
    execute_with_retry isConflictEndpoint
      "Endpoint creation failed after all retry attempts"
      (fun _ => .success 7) 0 60 =
      ⟨.trailingRaise "Endpoint creation failed after all retry attempts", [], 0⟩ := by
  decide

/-- Claim C9, amended: for every execution of the retry executor with
`max_retries ≥ 1`, the loop body either returns the first successful
result or raises from inside the loop, so the trailing "failed after all
retry attempts" exception after the loop is unreachable; only the
degenerate `max_retries = 0` reaches it. -/
theorem c9_trailing_raise_unreachable
    (isConflict : Exn → Bool) (trailingMsg : String) (op : Nat → AttemptOutcome)
    (max_retries initial_delay : Nat) (hmr : 0 < max_retries) :
    isTrailingOutcome (execute_with_retry isConflict trailingMsg op
      max_retries initial_delay).outcome = false :=
  retryGo_no_trailing isConflict trailingMsg op max_retries initial_delay
    max_retries 0 [] (by omega) hmr

/-- Claim C9, witness: the amended theorem on the always-conflicting
operation at the default `max_retries=3`. -/
theorem c9_witness :
    0 < 3 ∧ isTrailingOutcome (execute_with_retry isConflictEndpoint
      "Endpoint creation failed after all retry attempts" opAllConflict 3 60).outcome = false :=
  ⟨by decide, c9_trailing_raise_unreachable isConflictEndpoint
    "Endpoint creation failed after all retry attempts" opAllConflict 3 60 (by decide)⟩

/-- Claim C10: `_check_role_assignment` absorbs every provider failure —
whatever exception the `az role assignment list` call (or the JSON parse
of its output) raises, it returns `False` instead of propagating, and a
caller in `_assign_storage_role` therefore proceeds into the
create-binding path (exactly one create call is issued) rather than
aborting. -/
theorem c10_check_role_assignment_absorbs_errors
    (msg roleName : String) (create : CreateResult) (post : ListResult) :
    check_role_assignment (.raise msg) = false ∧
    (ensure_role roleName (.raise msg) create post).createCalls = 1 := by
  refine ⟨rfl, ?_⟩
  cases create with
  | ok => simp [ensure_role, check_role_assignment]
  | calledProcessError stderr =>
    simp only [ensure_role, check_role_assignment]
    rw [if_neg (by simp)]
    split <;> rfl

end MLOps
